import Mathlib

/-!
# Verification of the WhisperFusion transcription dashboard client

Shallow embedding of `src/GUI/TranscriptionSystem.tsx` and the API route
stubs under `src/GUI/app/api/`, together with proofs of the spec's
testable properties about the message dispatcher, the connection
manager's reconnect/fallback state machine, the polling fallback, the
control-message sender and the audio playback routine.
-/

namespace WhisperFusion

/-- The transcript record kinds, from `type TranscriptType` in
`TranscriptionSystem.tsx`. -/
inductive TranscriptType where
  | unrevised
  | revised
  | voice
deriving DecidableEq, Repr

/-- The connection states, from `type ConnectionStatus` in
`TranscriptionSystem.tsx`. -/
inductive ConnectionStatus where
  | connected
  | connecting
  | disconnected
  | polling
deriving DecidableEq, Repr

/-- One transcript record, from `interface Transcript` in
`TranscriptionSystem.tsx`: a kind, a content string and an
epoch-millisecond timestamp. -/
structure Transcript where
  type : TranscriptType
  content : String
  timestamp : Nat
deriving DecidableEq, Repr

/-- One recognized-text segment of an inbound transcription message: the
dispatcher reads only its `text` field (`seg.text`). -/
structure Segment where
  text : String
deriving DecidableEq, Repr

/-- The parsed shape of an inbound transcription message as the dispatcher
reads it: an optional `segments` array, an optional `llm_output` array of
strings, and the `eos` flag.  `none` models an absent (hence falsy) field,
matching the JavaScript truthiness tests `if (data.segments)` and
`if (data.llm_output)`; a present array, even empty, is truthy, hence
`some []` is distinct from `none`.  `eos` is read only for its truthiness,
so it is a `Bool` (absent = false). -/
structure TranscriptionData where
  segments : Option (List Segment)
  llm_output : Option (List String)
  eos : Bool
deriving DecidableEq, Repr

/-- A raw inbound message on the transcription socket: either
`JSON.parse(event.data)` succeeds and yields a `TranscriptionData`, or it
throws, which the dispatcher's `try`/`catch` turns into a logged no-op. -/
inductive RawMessage where
  | valid : TranscriptionData → RawMessage
  | malformed : RawMessage
deriving DecidableEq, Repr

/-- One call of the functional state updater
`setTranscripts(prev => [...prev, t])`: append a record to the log. -/
def appendTranscript (log : List Transcript) (t : Transcript) : List Transcript :=
  log ++ [t]

/-- `handleTranscriptionMessage` from `TranscriptionSystem.tsx` (lines
92-119), as a function of the parsed message, the timestamp captured once
by `const timestamp = Date.now()`, and the transcript log: a malformed
payload is caught (`console.error`) and leaves the log unchanged; a valid
payload appends one `unrevised` record per `segments` entry, then one
record per `llm_output` entry whose kind is `voice` when `eos` is truthy
and `revised` otherwise, via one `setTranscripts` append per entry.
Totality of this function embeds the `try`/`catch`: no error escapes the
handler. -/
def handleTranscriptionMessage (msg : RawMessage) (ts : Nat)
    (log : List Transcript) : List Transcript :=
  match msg with
  | .malformed => log
  | .valid d =>
    let log1 :=
      match d.segments with
      | none => log
      | some segs =>
        segs.foldl (fun acc seg =>
          appendTranscript acc ⟨.unrevised, seg.text, ts⟩) log
    match d.llm_output with
    | none => log1
    | some outs =>
      outs.foldl (fun acc out =>
        appendTranscript acc ⟨if d.eos then .voice else .revised, out, ts⟩) log1

/-- Process a sequence of inbound messages in receipt order, each with the
timestamp captured when its processing begins. -/
def processMessages (msgs : List (TranscriptionData × Nat))
    (log : List Transcript) : List Transcript :=
  msgs.foldl (fun acc m => handleTranscriptionMessage (.valid m.1) m.2 acc) log

/-- The records one message contributes to the log, stated declaratively
as the spec describes them: per-segment `unrevised` records followed by
per-`llm_output` records of kind `voice` if `eos` else `revised`. -/
def messageRecords (d : TranscriptionData) (ts : Nat) : List Transcript :=
  (d.segments.getD []).map (fun seg => ⟨.unrevised, seg.text, ts⟩)
    ++ (d.llm_output.getD []).map
        (fun out => ⟨if d.eos then .voice else .revised, out, ts⟩)

/-- A fold of single-element appends is an append of the mapped list. -/
theorem foldl_appendTranscript {α : Type} (f : α → Transcript)
    (xs : List α) (log : List Transcript) :
    xs.foldl (fun acc x => appendTranscript acc (f x)) log = log ++ xs.map f := by
  induction xs generalizing log with
  | nil => simp
  | cons x xs ih =>
    rw [List.foldl_cons, ih]
    simp [appendTranscript]

/-- Dispatching one valid message appends exactly its `messageRecords`. -/
theorem handleTranscriptionMessage_valid (d : TranscriptionData) (ts : Nat)
    (log : List Transcript) :
    handleTranscriptionMessage (.valid d) ts log = log ++ messageRecords d ts := by
  unfold handleTranscriptionMessage messageRecords
  cases hs : d.segments with
  | none =>
    cases ho : d.llm_output with
    | none => simp [hs, ho]
    | some outs => simp [hs, ho, foldl_appendTranscript]
  | some segs =>
    cases ho : d.llm_output with
    | none => simp [hs, ho, foldl_appendTranscript]
    | some outs => simp [hs, ho, foldl_appendTranscript]

/-! ## Connection manager state machine

`connectWebSocket`, `handleWebSocketError`, `handleWebSocketClose` and
`startPolling` from `TranscriptionSystem.tsx` (lines 59-181), as a state
machine over the observable connection-manager state.  `setTimeout` and
`setInterval` handles are counted explicitly: `scheduledReconnects` is
the number of pending `setTimeout(connectWebSocket, 3000)` callbacks not
yet fired, `pollingIntervals` the number of live `setInterval` handles
created by `startPolling` (the code never calls `clearInterval` on them:
the cleanup closure `startPolling` returns is discarded by its caller
`handleWebSocketClose`). -/

/-- Observable connection-manager state. -/
structure ConnState where
  status : ConnectionStatus
  reconnectAttempts : Nat
  scheduledReconnects : Nat
  pollingIntervals : Nat
deriving DecidableEq, Repr

/-- `const maxReconnectAttempts = 5` in `TranscriptionSystem.tsx`. -/
def maxReconnectAttempts : Nat := 5

/-- `startPolling` (lines 157-181): sets status to `polling` and creates
one `setInterval` handle.  Its `clearInterval` cleanup is only inside the
closure it returns, which `handleWebSocketClose` never stores or calls,
so no transition of this machine ever decrements `pollingIntervals`. -/
def startPolling (s : ConnState) : ConnState :=
  { s with status := .polling, pollingIntervals := s.pollingIntervals + 1 }

/-- `handleWebSocketClose` (lines 143-155): set status to `disconnected`;
if the attempt counter is below the ceiling, increment it and schedule a
reconnect after 3 seconds; otherwise fall back to polling. -/
def handleWebSocketClose (s : ConnState) : ConnState :=
  let s1 : ConnState := { s with status := .disconnected }
  if s1.reconnectAttempts < maxReconnectAttempts then
    { s1 with reconnectAttempts := s1.reconnectAttempts + 1,
              scheduledReconnects := s1.scheduledReconnects + 1 }
  else
    startPolling s1

/-- `handleWebSocketError` (lines 134-142): set status to `disconnected`
and show a toast; the counter and the timers are untouched. -/
def handleWebSocketError (s : ConnState) : ConnState :=
  { s with status := .disconnected }

/-- The `onopen` handler inside `connectWebSocket` (lines 72-80): set
status to `connected` and reset the attempt counter. -/
def handleWebSocketOpen (s : ConnState) : ConnState :=
  { s with status := .connected, reconnectAttempts := 0 }

/-- The state right after the mount effect's first `connectWebSocket()`
call: `connectWebSocket` sets status to `connecting`; the counter ref
starts at 0 and no timer exists yet. -/
def initialConnState : ConnState :=
  { status := .connecting, reconnectAttempts := 0,
    scheduledReconnects := 0, pollingIntervals := 0 }

/-- The state after `n` consecutive close events with no intervening open,
starting from the freshly mounted state. -/
def afterCloses (n : Nat) : ConnState :=
  Nat.iterate handleWebSocketClose n initialConnState

theorem afterCloses_succ (n : Nat) :
    afterCloses (n + 1) = handleWebSocketClose (afterCloses n) := by
  unfold afterCloses
  rw [Function.iterate_succ_apply']

/-- Once the attempt counter has reached the ceiling, a close event only
starts polling: the counter and the number of scheduled reconnects are
unchanged. -/
theorem handleWebSocketClose_at_ceiling (s : ConnState)
    (h : s.reconnectAttempts = maxReconnectAttempts) :
    handleWebSocketClose s =
      { s with status := .polling, pollingIntervals := s.pollingIntervals + 1 } := by
  simp [handleWebSocketClose, startPolling, h]

/-- Closed form for the state after `6 + k` consecutive close events:
status is `polling`, the counter is pinned at 5, exactly the 5 reconnects
scheduled by the first five closes exist, and each close past the fifth
has piled up one more never-cleared polling interval. -/
theorem afterCloses_closed_form (k : Nat) :
    afterCloses (6 + k) =
      { status := .polling, reconnectAttempts := 5,
        scheduledReconnects := 5, pollingIntervals := k + 1 } := by
  induction k with
  | zero => decide
  | succ k ih =>
    have h : 6 + (k + 1) = (6 + k) + 1 := by omega
    rw [h, afterCloses_succ, ih]
    simp [handleWebSocketClose, startPolling, maxReconnectAttempts]

/-! ## Transport-scheme selection

`const [isSecure, setIsSecure] = useState(false)` (line 26) and the mount
effect (lines 40-50): the effect calls `setIsSecure(protocol === 'https:')`
— a React state update that only takes effect at the *next* render — and
then calls `connectWebSocket()` in the same tick.  `connectWebSocket`
(lines 59-70) reads the `isSecure` binding of the render in which its
closure was created, which at that moment still holds the initial value
`false`.  All later reconnects run the same render's
`connectWebSocket`/`handleWebSocketClose` closures (registered as socket
handlers during that first effect), so they read the same stale binding. -/

/-- Initial value of the `isSecure` state (`useState(false)`). -/
def initialIsSecure : Bool := false

/-- `const wsProtocol = isSecure ? 'wss://' : 'ws://'` (line 61). -/
def wsProtocolOfIsSecure (isSecure : Bool) : String :=
  if isSecure then "wss://" else "ws://"

/-- The transport prefix the mount effect's first `connectWebSocket()`
call actually uses on a page loaded with scheme `pageProtocol`: the
`setIsSecure` update is still pending, so `isSecure` read inside
`connectWebSocket` is the initial `false`, whatever the page scheme. -/
def mountConnectProtocol (pageProtocol : String) : String :=
  wsProtocolOfIsSecure initialIsSecure

/-- Modelled from the spec: the transport prefix the Connection Manager
contract requires — encrypted (`wss://`) iff the page itself was loaded
over an encrypted scheme (`https:`). -/
def specConnectProtocol (pageProtocol : String) : String :=
  if pageProtocol = "https:" then "wss://" else "ws://"

/-! ## Polling fallback tick and the transcript stub endpoint -/

/-- One entry of the mock transcript list the stub route returns. -/
structure TranscriptEntry where
  type : String
  content : String
deriving DecidableEq, Repr

/-- The JSON body a poll of `GET /api/transcripts` yields, as the polling
handler inspects it: either a JSON array (whose `segments` and
`llm_output` properties are `undefined`, hence falsy) or a JSON object
with the transcription-message fields. -/
inductive PollResponse where
  | arrayResp : List TranscriptEntry → PollResponse
  | objResp : TranscriptionData → PollResponse
deriving DecidableEq, Repr

/-- The guard `if (data.segments || data.llm_output)` (line 166) on the
parsed poll response: an array has neither property, so the test is
false; an object passes iff either field is present (a present array,
even empty, is truthy). -/
def hasSegmentsOrLlmOutput : PollResponse → Bool
  | .arrayResp _ => false
  | .objResp d => d.segments.isSome || d.llm_output.isSome

/-- `GET` from `src/GUI/app/api/transcripts/transcripts_route.ts`
(lines 3-17): the stub returns a fixed JSON array of three entries. -/
def transcriptsRouteGET : PollResponse :=
  .arrayResp
    [⟨"unrevised", "This is an unrevised transcript."⟩,
     ⟨"revised", "This is a revised transcript."⟩,
     ⟨"voice", "This is a generated voice output transcript."⟩]

/-- Feeding a poll response through the dispatch path (lines 163-168):
when the guard passes, the response is re-serialized and handed to
`handleTranscriptionMessage`, which for an object round-trips to the same
parsed data; an array never passes the guard. -/
def pollDispatch (resp : PollResponse) (ts : Nat)
    (log : List Transcript) : List Transcript :=
  if hasSegmentsOrLlmOutput resp then
    match resp with
    | .objResp d => handleTranscriptionMessage (.valid d) ts log
    | .arrayResp _ => log
  else log

/-- One tick of the `setInterval` callback installed by `startPolling`
(lines 159-179).  The guard `if (connectionStatus !== 'connected')`
(line 160) reads the `connectionStatus` binding captured by the callback's
closure — the value of the render in which `startPolling` was created —
not the live status; `currentStatus` is the live status at tick time and
is not consulted by the code.  Returns the new log and whether a fetch of
`/api/transcripts` was issued. -/
def pollTick (capturedStatus currentStatus : ConnectionStatus)
    (resp : PollResponse) (ts : Nat)
    (log : List Transcript) : List Transcript × Bool :=
  if capturedStatus ≠ .connected then (pollDispatch resp ts log, true)
  else (log, false)

/-- The `connectionStatus` value the polling callback's closure captured:
`startPolling` runs inside `handleWebSocketClose`, a handler registered
by the mount effect during the initial render, whose `connectionStatus`
binding is the initial `useState('disconnected')` value. -/
def pollingCapturedStatus : ConnectionStatus := .disconnected

/-! ## Outbound control messages -/

/-- An outbound control message, over the socket when it is open
(`socketRef.current.send`) or as a `POST /api/send-message` fallback
otherwise. -/
inductive Outbound where
  | socket : String → Outbound
  | httpPost : String → Outbound
deriving DecidableEq, Repr

/-- The message payload an `Outbound` carries. -/
def Outbound.payload : Outbound → String
  | .socket m => m
  | .httpPost m => m

/-- `sendMessage` (lines 202-226): if the primary socket's ready state is
OPEN, send the message on it; otherwise issue one HTTP POST of the same
message to `/api/send-message` (whose failure is caught and surfaced as a
toast without re-sending).  Either way exactly one outbound carrier of
the message is produced. -/
def sendMessage (socketOpen : Bool) (message : String) : List Outbound :=
  if socketOpen then [.socket message] else [.httpPost message]

/-- `handleStartStreaming` (lines 263-273) as a function of the
`streamUrl` state and the socket's openness: an empty URL (falsy
`!streamUrl`) shows an error toast and returns before any send; otherwise
`sendMessage` is called once with `START_STREAMING:` prefixed to the URL.
Returns whether the error toast was shown and the outbound messages. -/
def handleStartStreaming (streamUrl : String) (socketOpen : Bool) :
    Bool × List Outbound :=
  if streamUrl = "" then (true, [])
  else (false, sendMessage socketOpen ("START_STREAMING:" ++ streamUrl))

/-! ## Component teardown -/

/-- The component state the unmount cleanup can touch: the connection
machine, whether the two sockets are open, and whether a capture device
is active. -/
structure ComponentState where
  conn : ConnState
  socketsOpen : Bool
  audioStreamActive : Bool
deriving DecidableEq, Repr

/-- The cleanup returned by the mount effect (lines 45-49):
`socketRef.current?.close(); audioSocketRef.current?.close();
stopAudioStream()`.  The sockets are refs, so both really close.
`stopAudioStream` (lines 52-57) tests the `audioStream` binding captured
by the cleanup's closure — the initial render's `null` — given here as
`capturedAudioStream`; only when it is truthy are the tracks stopped.
Nothing in the cleanup calls `clearTimeout` or `clearInterval`, so
`scheduledReconnects` and `pollingIntervals` are untouched. -/
def unmountCleanup (capturedAudioStream : Bool)
    (s : ComponentState) : ComponentState :=
  { s with socketsOpen := false,
           audioStreamActive :=
             if capturedAudioStream then false else s.audioStreamActive }

/-! ## Audio playback -/

/-- Outcome of `audio.play()`: the awaited promise resolves or rejects. -/
inductive PlayOutcome where
  | success
  | failure
deriving DecidableEq, Repr

/-- Observable effects of one `playAudio` call. -/
structure PlayResult where
  srcAssigned : Option String
  playAttempted : Bool
  errorToast : Bool
  urlRevoked : Bool
deriving DecidableEq, Repr

/-- `playAudio` (lines 183-200): when the audio element ref is non-null
(it always is while mounted — the `<audio>` element is rendered
unconditionally), assign the URL to `audio.src`, `try` to play, `catch` a
rejection with an error toast, and `finally` revoke the object URL; when
the ref is null the whole body is skipped. -/
def playAudio (audioElPresent : Bool) (url : String)
    (outcome : PlayOutcome) : PlayResult :=
  if audioElPresent then
    { srcAssigned := some url, playAttempted := true,
      errorToast := outcome = .failure, urlRevoked := true }
  else
    { srcAssigned := none, playAttempted := false,
      errorToast := false, urlRevoked := false }

/-! ## Claim theorems -/

/-- Claim C1: for every sequence of inbound transcription messages, the
transcript log after processing equals, in order, for each message in
receipt order, one `unrevised` record per `segments` entry (content the
segment's `text`) followed by one record per `llm_output` entry of kind
`voice` if the message's `eos` flag is set and `revised` otherwise. -/
theorem transcript_log_shape (msgs : List (TranscriptionData × Nat))
    (log : List Transcript) :
    processMessages msgs log =
      log ++ (msgs.map (fun m => messageRecords m.1 m.2)).flatten := by
  induction msgs generalizing log with
  | nil => simp [processMessages]
  | cons m ms ih =>
    have h1 : processMessages (m :: ms) log =
        processMessages ms (handleTranscriptionMessage (.valid m.1) m.2 log) := by
      simp [processMessages]
    rw [h1, handleTranscriptionMessage_valid, ih]
    simp

/-- Claim C3: a malformed (non-JSON) inbound transcription message leaves
the transcript log unchanged; totality of the embedded handler reflects
that the `catch` keeps any parse error inside the dispatcher. -/
theorem malformed_message_noop (ts : Nat) (log : List Transcript) :
    handleTranscriptionMessage .malformed ts log = log := rfl

/-- Claim C9: every transcript record appended while processing a single
inbound message carries the timestamp captured once at the start of that
processing. -/
theorem uniform_timestamp_per_message (d : TranscriptionData) (ts : Nat)
    (log : List Transcript) (r : Transcript)
    (h : r ∈ (handleTranscriptionMessage (.valid d) ts log).drop log.length) :
    r.timestamp = ts := by
  rw [handleTranscriptionMessage_valid, List.drop_left] at h
  simp only [messageRecords, List.mem_append, List.mem_map] at h
  rcases h with ⟨seg, _, rfl⟩ | ⟨out, _, rfl⟩ <;> rfl

/-- Concrete instance of `uniform_timestamp_per_message`: a record
appended by a message carrying one segment and one generated output. -/
theorem uniform_timestamp_per_message_witness :
    (⟨.unrevised, "hi", 42⟩ : Transcript) ∈
      (handleTranscriptionMessage
        (.valid ⟨some [⟨"hi"⟩], some ["out"], true⟩) 42 []).drop
        ([] : List Transcript).length ∧
    (⟨.unrevised, "hi", 42⟩ : Transcript).timestamp = 42 :=
  ⟨by decide,
   uniform_timestamp_per_message ⟨some [⟨"hi"⟩], some ["out"], true⟩ 42 []
     ⟨.unrevised, "hi", 42⟩ (by decide)⟩

/-- Claim C2 as stated is false: after exactly 5 consecutive close events
with no intervening open, the status is still `disconnected`, not
`polling`, and the fifth event has just scheduled a fifth reconnect
attempt. -/
theorem five_closes_not_yet_polling :
    (afterCloses 5).status = .disconnected ∧
    (afterCloses 5).status ≠ .polling ∧
    (afterCloses 5).scheduledReconnects = 5 ∧
    (afterCloses 4).scheduledReconnects = 4 := by decide

/-- Claim C2, amended: the first five close events each schedule a
reconnect; the sixth consecutive close event (the one following the fifth
failed reconnect attempt) switches the status to `polling`, and from then
on no close event ever schedules another reconnect — the count of
scheduled reconnects stays pinned at 5. -/
theorem polling_after_sixth_close :
    (afterCloses 6).status = .polling ∧
    (afterCloses 6).scheduledReconnects = 5 ∧
    ∀ k, (afterCloses (6 + k)).status = .polling ∧
      (afterCloses (6 + k)).scheduledReconnects = 5 := by
  refine ⟨by decide, by decide, fun k => ?_⟩
  rw [afterCloses_closed_form]
  exact ⟨rfl, rfl⟩

/-- Claim C4 fails on the code: on a page loaded over `https:` the mount
effect's first connection uses `ws://`, because `connectWebSocket` runs
before the `setIsSecure` state update is applied and so reads the initial
`isSecure = false`; the contract requires `wss://` there. -/
theorem first_connect_ignores_page_scheme :
    mountConnectProtocol "https:" = "ws://" ∧
    specConnectProtocol "https:" = "wss://" ∧
    mountConnectProtocol "https:" ≠ specConnectProtocol "https:" := by
  refine ⟨rfl, rfl, ?_⟩
  decide

/-- Claim C5 fails on the code: a polling tick taken while the live
connection status is `connected` still issues the fetch, because the
guard reads the status captured by the interval callback's closure
(`disconnected`, the value of the render that created the handlers), not
the live one. -/
theorem poll_fetch_despite_connected :
    (pollTick pollingCapturedStatus .connected transcriptsRouteGET 0 []).2
      = true := by decide

/-- Claim C6: triggering start-streaming with an empty URL shows an error
toast and sends nothing; with a non-empty URL `u` it sends exactly one
control message `START_STREAMING:` ++ `u` and shows no error. -/
theorem start_streaming_contract (socketOpen : Bool) (u : String)
    (h : u ≠ "") :
    handleStartStreaming "" socketOpen = (true, []) ∧
    (handleStartStreaming u socketOpen).1 = false ∧
    ((handleStartStreaming u socketOpen).2).map Outbound.payload
      = ["START_STREAMING:" ++ u] := by
  refine ⟨rfl, ?_, ?_⟩ <;>
    cases socketOpen <;>
      simp [handleStartStreaming, sendMessage, Outbound.payload, h]

/-- Concrete instance of `start_streaming_contract` at the spec's example
URL, with the socket open. -/
theorem start_streaming_contract_witness :
    "example.com/stream" ≠ "" ∧
    (handleStartStreaming "" true = (true, []) ∧
     (handleStartStreaming "example.com/stream" true).1 = false ∧
     ((handleStartStreaming "example.com/stream" true).2).map Outbound.payload
       = ["START_STREAMING:" ++ "example.com/stream"]) :=
  ⟨by decide, start_streaming_contract true "example.com/stream" (by decide)⟩

/-- Claim C7 fails on the code: unmounting after polling mode was entered
(and while a capture stream is active) closes both sockets, but the
polling interval stays alive — `startPolling` returns its `clearInterval`
closure to `handleWebSocketClose`, which discards it — and the capture
stream is not released, because the cleanup's `stopAudioStream` closure
captured the initial render's `null` stream. -/
theorem teardown_leaves_polling_interval :
    (unmountCleanup false ⟨afterCloses 6, true, true⟩).socketsOpen = false ∧
    (unmountCleanup false ⟨afterCloses 6, true, true⟩).conn.pollingIntervals
      = 1 ∧
    (unmountCleanup false ⟨afterCloses 6, true, true⟩).audioStreamActive
      = true := by decide

/-- Claim C8: with the audio element present (it is rendered
unconditionally while the component is mounted), a playback request
assigns the resource to the element, attempts playback, shows an error
toast exactly when playback fails, and always revokes the temporary
object URL afterwards. -/
theorem playback_contract (url : String) (outcome : PlayOutcome) :
    (playAudio true url outcome).srcAssigned = some url ∧
    (playAudio true url outcome).playAttempted = true ∧
    ((playAudio true url outcome).errorToast = true ↔ outcome = .failure) ∧
    (playAudio true url outcome).urlRevoked = true := by
  cases outcome <;> simp [playAudio]

/-- Claim C10: polling against the current stub endpoint never changes
the transcript log — the stub returns a JSON array, which has neither a
`segments` nor an `llm_output` property, so the dispatch guard rejects
it on every tick, whatever the captured and live statuses. -/
theorem stub_polling_leaves_log_unchanged :
    hasSegmentsOrLlmOutput transcriptsRouteGET = false ∧
    ∀ (captured current : ConnectionStatus) (ts : Nat)
      (log : List Transcript),
      (pollTick captured current transcriptsRouteGET ts log).1 = log := by
  refine ⟨rfl, fun captured current ts log => ?_⟩
  cases captured <;>
    simp [pollTick, pollDispatch, hasSegmentsOrLlmOutput, transcriptsRouteGET]

end WhisperFusion
